import Mathlib

/-!
Verification of the InfraGlow card's synchronization and color-mapping core.

Shallow embedding of `src/custom_components/infraglow/frontend/infraglow-card.js`
(the revision with the escalating-backoff reload loop; the file also bundles an
older revision with a single flat 2 s retry, noted where relevant).

JS numbers are modelled as `ℚ` (exact where the source arithmetic is exact at the
claim level), JS integer channels as `ℤ`, JS strings as `String` (or `List Char`
where character-level slicing matters), nullable values as `Option`, and the
remote connection as explicit message lists / response parameters.
-/

namespace InfraGlow

/-- An RGB triple as held in a visualization record: three integer channels
(indices 0, 1, 2 of the JS array). -/
structure RGB where
  r : ℤ
  g : ℤ
  b : ℤ
deriving DecidableEq, Repr

/-- JS `Math.round`: round half toward positive infinity, `⌊x + 1/2⌋`. -/
def jsRound (q : ℚ) : ℤ := ⌊q + 1/2⌋

/-- Embedding of `_lerpColor(a, b, t)`: `t` is clamped to `[0,1]`, then each channel is
`Math.round(a[c] + (b[c] - a[c]) * t)`. -/
def lerpColor (a b : RGB) (t : ℚ) : RGB :=
  let t' := max 0 (min 1 t)
  ⟨jsRound ((a.r : ℚ) + ((b.r : ℚ) - (a.r : ℚ)) * t'),
   jsRound ((a.g : ℚ) + ((b.g : ℚ) - (a.g : ℚ)) * t'),
   jsRound ((a.b : ℚ) + ((b.b : ℚ) - (a.b : ℚ)) * t')⟩

/-- Thin wrapper `_gradientColor(t, low, high)` over `_lerpColor`. -/
def gradientColor (t : ℚ) (low high : RGB) : RGB := lerpColor low high t

/-- All three channels are integers in `[0, 255]`. -/
def RGB.inRange (c : RGB) : Prop :=
  0 ≤ c.r ∧ c.r ≤ 255 ∧ 0 ≤ c.g ∧ c.g ≤ 255 ∧ 0 ≤ c.b ∧ c.b ≤ 255

instance : DecidablePred RGB.inRange := fun c => by
  unfold RGB.inRange; infer_instance

/-- Rounding an integer plus nothing gives it back: `⌊n + 1/2⌋ = n`. -/
lemma jsRound_intCast (n : ℤ) : jsRound (n : ℚ) = n := by
  unfold jsRound
  rw [Int.floor_eq_iff]
  constructor
  · linarith
  · linarith

/-- Monotonicity of `jsRound`. -/
lemma jsRound_mono {p q : ℚ} (h : p ≤ q) : jsRound p ≤ jsRound q := by
  unfold jsRound
  exact Int.floor_le_floor (by linarith)

/-- JS truthiness of a possibly-absent string: `undefined`/`null` and `""` are
falsy, every other string is truthy. -/
def jsTruthyStr (s : Option String) : Bool :=
  match s with
  | none => false
  | some s => s != ""

/-- JS `a || d` for a possibly-absent string `a` and a (truthy) default. -/
def jsOrStr (a : Option String) (d : String) : String :=
  match a with
  | some s => if s != "" then s else d
  | none => d

/-- The `entity_map` of a wire record: logical role → entity id.  Roles used by
the card; an absent role means the corresponding control is not offered. -/
structure EntityMap where
  enabled : Option String := none
  normalized : Option String := none
  value : Option String := none
  floor : Option String := none
  ceiling : Option String := none
  effect : Option String := none
  speed_min : Option String := none
  speed_max : Option String := none
  mirror : Option String := none
  include_black : Option String := none
deriving DecidableEq, Repr

/-- One record of `result.visualizations` as received from
`infraglow/get_config` (snake_case wire names; `none` = field absent/null). -/
structure WireViz where
  subentry_id : String
  title : Option String := none
  name : Option String := none
  entity_map : Option EntityMap := none
  color_low : Option RGB := none
  color_high : Option RGB := none
  renderer_type : Option String := none
  mode : Option String := none
  entity_id : Option String := none
  segment_id : Option ℤ := none
  num_leds : Option ℤ := none
  update_interval : Option ℚ := none
  flash_color : Option RGB := none
  flash_speed : Option ℚ := none
  flash_style : Option String := none
deriving DecidableEq, Repr

/-- The in-memory visualization record built by `_loadConfig`'s mapping.
`colorLow`, `colorHigh`, `flashColor` stay `Option` because `_computeTuples`
re-applies a truthiness default on them. -/
structure Viz where
  subentryId : String
  name : String
  entities : EntityMap
  colorLow : Option RGB
  colorHigh : Option RGB
  isAlert : Bool
  rendererType : String
  mode : String
  sourceEntity : String
  segmentId : ℤ
  numLeds : ℤ
  updateInterval : ℚ
  flashColor : Option RGB
  flashSpeed : ℚ
  flashStyle : String
deriving DecidableEq, Repr

/-- One entry of `this._colorState` — the per-record pending-override overlay.
Only these three fields are ever written by the card. -/
structure Overlay where
  low : Option RGB := none
  high : Option RGB := none
  flashColor : Option RGB := none
deriving DecidableEq, Repr

/-- Data collected by the create form (`this._createData`). -/
structure CreateData where
  name : Option String := none
  entity_id : Option String := none
  segment_id : Option ℤ := none
  num_leds : Option ℤ := none
  floor : Option ℚ := none
  ceiling : Option ℚ := none
deriving DecidableEq, Repr

/-- Response payload of `infraglow/get_config`. -/
structure GetConfigResult where
  visualizations : Option (List WireViz) := none
deriving DecidableEq, Repr

/-- The component state relevant to the synchronization core. -/
structure CardState where
  vizData : Option (List Viz)
  colorState : List (String × Overlay)
  loaded : Bool
  loading : Bool
  entryId : Option String
  showCreateForm : Bool
  createMode : Option String
  createData : Option CreateData
deriving DecidableEq, Repr

/-- Value carried by an `update_viz` message. -/
inductive FieldVal where
  | rgb (c : RGB)
  | num (q : ℚ)
  | str (s : String)
deriving DecidableEq, Repr

/-- Backend mutation messages sent over `hass.connection.sendMessagePromise`
(the `get_config` query is modelled by the response parameters of
`loadConfig` instead). -/
inductive Msg where
  | createViz (entryId : Option String) (mode : Option String) (params : Option CreateData)
  | updateViz (entryId : Option String) (slotId : String) (param : String) (value : FieldVal)
  | deleteViz (entryId : Option String) (subentryId : String)
deriving DecidableEq, Repr

/-- Wire-to-record mapping of `_loadConfig` for one record, given the current
overlay table: `saved = (this._colorState || {})[viz.subentry_id]`, and each
colour field is `saved?.x || viz.wire_x || default` (arrays are always truthy,
so the overlay value wins whenever present). -/
def mapWire (cs : List (String × Overlay)) (w : WireViz) : Viz :=
  let saved := List.lookup w.subentry_id cs
  { subentryId := w.subentry_id
    name := jsOrStr w.title (jsOrStr w.name "Visualization")
    entities := w.entity_map.getD {}
    colorLow := some (((saved.bind Overlay.low).orElse (fun _ => w.color_low)).getD ⟨0, 255, 0⟩)
    colorHigh := some (((saved.bind Overlay.high).orElse (fun _ => w.color_high)).getD ⟨255, 0, 0⟩)
    isAlert := w.renderer_type == some "alert"
    rendererType := jsOrStr w.renderer_type "effect"
    mode := jsOrStr w.mode ""
    sourceEntity := jsOrStr w.entity_id ""
    segmentId := w.segment_id.getD 0
    numLeds := w.num_leds.getD 30
    updateInterval := w.update_interval.getD (1/2)
    flashColor := some (((saved.bind Overlay.flashColor).orElse (fun _ => w.flash_color)).getD ⟨255, 0, 0⟩)
    flashSpeed := w.flash_speed.getD 2
    flashStyle := jsOrStr w.flash_style "pulse" }

/-- Embedding of `_loadConfig`.  `deviceEntry` is `hass.devices[device_id]?.config_entries?.[0]`
(`none` covers missing hass/device/config entry — all those paths leave the
state unchanged).  `resp` is the settled `get_config` promise: `.error` is a
transport/decode rejection, caught and logged (`console.error`) without
rethrowing; the `finally` clause restores `loading := false`, which was `false`
on entry whenever the body runs. -/
def loadConfig (st : CardState) (deviceEntry : Option String)
    (resp : Except Unit GetConfigResult) : CardState :=
  if st.loading then st
  else
    match deviceEntry with
    | none => st
    | some entry =>
      match resp with
      | .error _ => { st with entryId := some entry }
      | .ok result =>
        { st with
          entryId := some entry
          vizData := some (((result.visualizations).getD []).map (mapWire st.colorState))
          loaded := true
          loading := false }

/-- Truthiness of `this._vizData?.length`: a non-null, non-empty list. -/
def vizNonEmpty (st : CardState) : Bool :=
  match st.vizData with
  | some (_ :: _) => true
  | _ => false

/-- Delay (milliseconds) awaited before attempt `i` of the reload loop:
`1500 + i * 500`. -/
def delayMs (i : ℕ) : ℚ := 1500 + i * 500

/-- The body of `_reloadConfig`'s `for` loop, with explicit fuel (5 at the
top level).  Returns the final state together with the trace of delays awaited
before each attempt actually performed. -/
def reloadGo (env : ℕ → Option String × Except Unit GetConfigResult) :
    ℕ → ℕ → CardState → CardState × List ℚ
  | 0, _, st => (st, [])
  | fuel + 1, i, st =>
    let st' := loadConfig st (env i).1 (env i).2
    if vizNonEmpty st' then (st', [delayMs i])
    else
      let r := reloadGo env fuel (i + 1) st'
      (r.1, delayMs i :: r.2)

/-- Embedding of `_reloadConfig`: clears `loaded` and `loading`, then runs up to 5
attempts, each preceded by an escalating delay, breaking as soon as
`this._vizData?.length` is truthy.  `env i` supplies the device/entry lookup
and backend response seen by attempt `i`. -/
def reloadConfig (st : CardState)
    (env : ℕ → Option String × Except Unit GetConfigResult) : CardState × List ℚ :=
  reloadGo env 5 0 { st with loaded := false, loading := false }

/-- One generated color tuple `{label, color}`. -/
structure Tuple where
  label : String
  color : RGB
deriving DecidableEq, Repr

/-- The spread constant: `TUPLE_SPREAD = 0.30`. -/
def TUPLE_SPREAD : ℚ := 3/10

/-- Embedding of `_computeTuples(viz, normPct)`.  Here `states eid` models
`this.hass.states[eid]?.state`. -/
def computeTuples (states : String → Option String) (viz : Viz)
    (normPct : Option ℚ) : List Tuple :=
  if viz.isAlert then
    [⟨"Flash", viz.flashColor.getD ⟨255, 0, 0⟩⟩]
  else
    let t := normPct.getD 0 / 100
    let low := viz.colorLow.getD ⟨0, 255, 0⟩
    let high := viz.colorHigh.getD ⟨255, 0, 0⟩
    let primary := gradientColor t low high
    if viz.rendererType == "effect" then
      let includeBlack :=
        match viz.entities.include_black with
        | none => false
        | some eid => eid != "" && states eid == some "on"
      if includeBlack then
        let tSec := min 1 (t + TUPLE_SPREAD)
        let secondary := gradientColor tSec low high
        [⟨"Primary", primary⟩, ⟨"Secondary", ⟨0, 0, 0⟩⟩, ⟨"Tertiary", secondary⟩]
      else
        let tLo := max 0 (t - TUPLE_SPREAD)
        let tHi := min 1 (t + TUPLE_SPREAD)
        [⟨"Primary", primary⟩,
         ⟨"Secondary", gradientColor tLo low high⟩,
         ⟨"Tertiary", gradientColor tHi low high⟩]
    else
      [⟨"Color", primary⟩]

/-- The `localKey` argument of `_updateWsParam` at its three call sites. -/
inductive WsKey where
  | flashColor
  | flashSpeed
  | flashStyle
deriving DecidableEq, Repr

/-- The wire `param` name paired with each `localKey` at the call sites. -/
def WsKey.wireParam : WsKey → String
  | .flashColor => "flash_color"
  | .flashSpeed => "flash_speed"
  | .flashStyle => "flash_style"

/-- The (dynamic) type of the value passed for each key. -/
@[reducible] def WsKey.Val : WsKey → Type
  | .flashColor => RGB
  | .flashSpeed => ℚ
  | .flashStyle => String

/-- Wrap the value as it appears in the `update_viz` message. -/
def WsKey.toFieldVal : (k : WsKey) → k.Val → FieldVal
  | .flashColor, c => .rgb c
  | .flashSpeed, q => .num q
  | .flashStyle, s => .str s

/-- The in-place record write `viz[localKey] = value`. -/
def setVizField (viz : Viz) : (k : WsKey) → k.Val → Viz
  | .flashColor, c => { viz with flashColor := some c }
  | .flashSpeed, q => { viz with flashSpeed := q }
  | .flashStyle, s => { viz with flashStyle := s }

/-- The conditional write `if (localKey === "flashColor") this._colorState[id].flashColor = value`
— only the flash-color key writes an overlay field. -/
def overlayWrite : (k : WsKey) → k.Val → Overlay → Overlay
  | .flashColor, c, o => { o with flashColor := some c }
  | .flashSpeed, _, o => o
  | .flashStyle, _, o => o

/-- Entry creation: `if (!this._colorState[id]) this._colorState[id] = {}`. -/
def ensureOverlay (cs : List (String × Overlay)) (k : String) :
    List (String × Overlay) :=
  match List.lookup k cs with
  | some _ => cs
  | none => (k, {}) :: cs

/-- Apply `f` to the overlay stored under key `k`. -/
def setOverlay (cs : List (String × Overlay)) (k : String) (f : Overlay → Overlay) :
    List (String × Overlay) :=
  cs.map (fun p => if p.1 == k then (p.1, f p.2) else p)

/-- Apply `f` to the record with the given `subentryId` inside `_vizData`
(the JS code mutates the aliased list element in place). -/
def mapVizData (vd : Option (List Viz)) (subId : String) (f : Viz → Viz) :
    Option (List Viz) :=
  vd.map (List.map fun w => if w.subentryId == subId then f w else w)

/-- Embedding of `_updateWsParam(viz, param, value, localKey)`: fires the `update_viz`
message (not awaited), ensures an overlay entry exists, writes the overlay
field for the flash-color key only, and writes the record field — all in the
same synchronous turn, before any backend acknowledgment. -/
def updateWsParam (st : CardState) (subId : String) (k : WsKey) (v : k.Val) :
    CardState × List Msg :=
  let msg := Msg.updateViz st.entryId subId k.wireParam (k.toFieldVal v)
  let cs := ensureOverlay st.colorState subId
  let cs := setOverlay cs subId (overlayWrite k v)
  let vd := mapVizData st.vizData subId (fun w => setVizField w k v)
  ({ st with colorState := cs, vizData := vd }, [msg])

/-- Embedding of `_updateColor(viz, param, hexColor)` after `rgb = this._hexToRgb(hexColor)`
(the colour input always supplies a well-formed `#rrggbb`, so `rgb` is the
parsed triple; hex parsing itself is verified separately).  Fires the
`update_viz` message, ensures an overlay entry, and for `"color_low"` /
`"color_high"` writes both the overlay field and the record field. -/
def updateColor (st : CardState) (subId : String) (param : String) (rgb : RGB) :
    CardState × List Msg :=
  let msg := Msg.updateViz st.entryId subId param (.rgb rgb)
  let cs := ensureOverlay st.colorState subId
  let cs := if param == "color_low" then setOverlay cs subId (fun o => { o with low := some rgb }) else cs
  let vd := if param == "color_low" then mapVizData st.vizData subId (fun w => { w with colorLow := some rgb }) else st.vizData
  let cs := if param == "color_high" then setOverlay cs subId (fun o => { o with high := some rgb }) else cs
  let vd := if param == "color_high" then mapVizData vd subId (fun w => { w with colorHigh := some rgb }) else vd
  ({ st with colorState := cs, vizData := vd }, [msg])

/-- Embedding of `_createVisualization`: local pre-validation
`if (!this._entryId || !this._createMode || !this._createData?.entity_id) return`
issues nothing; otherwise the `create_viz` message is sent.  `resp` is its
settled promise: failure is caught and logged; success resets the form and
awaits `_reloadConfig` (whose attempts see `env`). -/
def createVisualization (st : CardState) (resp : Except Unit Unit)
    (env : ℕ → Option String × Except Unit GetConfigResult) : CardState × List Msg :=
  if !(jsTruthyStr st.entryId && jsTruthyStr st.createMode
        && jsTruthyStr (st.createData.bind CreateData.entity_id)) then
    (st, [])
  else
    let msg := Msg.createViz st.entryId st.createMode st.createData
    match resp with
    | .error _ => (st, [msg])
    | .ok _ =>
      let st' := { st with showCreateForm := false, createMode := none,
                           createData := some {} }
      ((reloadConfig st' env).1, [msg])

/-- Embedding of `_deleteVisualization(viz)`: returns immediately when `this._entryId` is
falsy or the operator declines the `confirm(...)` dialog (`confirmed = false`);
otherwise sends `delete_viz`, and on success awaits `_reloadConfig`. -/
def deleteVisualization (st : CardState) (viz : Viz) (confirmed : Bool)
    (resp : Except Unit Unit)
    (env : ℕ → Option String × Except Unit GetConfigResult) : CardState × List Msg :=
  if !(jsTruthyStr st.entryId) then (st, [])
  else if !confirmed then (st, [])
  else
    let msg := Msg.deleteViz st.entryId viz.subentryId
    match resp with
    | .error _ => (st, [msg])
    | .ok _ => ((reloadConfig st env).1, [msg])

/-- Channel clamp `Math.max(0, Math.min(255, c || 0))` on an integer channel (`c || 0` is
the identity on integers: it replaces only falsy values, and `0 || 0 = 0`). -/
def jsClamp255 (c : ℤ) : ℤ := max 0 (min 255 c)

/-- Two-digit rendering `c.toString(16).padStart(2, "0")` for `c ∈ [0, 255]`: two lowercase hex
digits. -/
def toHex2 (n : ℕ) : List Char := [Nat.digitChar (n / 16), Nat.digitChar (n % 16)]

/-- Embedding of `_rgbToHex(rgb)`: `none` models a non-array argument; an array of fewer
than 3 channels also yields the fixed default `"#00ff00"`.  Otherwise every
channel is clamped and rendered as two hex digits (all channels are mapped,
matching `rgb.map(...).join("")`). -/
def rgbToHex (rgb : Option (List ℤ)) : List Char :=
  match rgb with
  | none => ['#', '0', '0', 'f', 'f', '0', '0']
  | some l =>
    if l.length < 3 then ['#', '0', '0', 'f', 'f', '0', '0']
    else '#' :: (l.map (fun c => toHex2 (jsClamp255 c).toNat)).flatten

/-- Value of one hex digit as `parseInt` reads it (upper or lower case);
`none` = not a hex digit. -/
def hexDigitVal (c : Char) : Option ℕ :=
  if '0' ≤ c ∧ c ≤ '9' then some (c.toNat - 48)
  else if 'a' ≤ c ∧ c ≤ 'f' then some (c.toNat - 87)
  else if 'A' ≤ c ∧ c ≤ 'F' then some (c.toNat - 55)
  else none

/-- JS `parseInt(s, 16)` on a slice of at most two characters: parses the
longest valid prefix; an empty or immediately-invalid string gives `NaN`
(modelled as `none`). -/
def parseIntHex2 (s : List Char) : Option ℕ :=
  match s with
  | [] => none
  | [c] => hexDigitVal c
  | c₁ :: c₂ :: _ =>
    match hexDigitVal c₁ with
    | none => none
    | some v₁ =>
      match hexDigitVal c₂ with
      | none => some v₁
      | some v₂ => some (16 * v₁ + v₂)

/-- JS `s.slice(a, b)` for `0 ≤ a ≤ b`. -/
def jsSlice (s : List Char) (a b : ℕ) : List Char := (s.drop a).take (b - a)

/-- Embedding of `_hexToRgb(hex)`: parse characters 1–2, 3–4, 5–6 as hex bytes
(`none` = `NaN`). -/
def hexToRgb (hex : List Char) : List (Option ℤ) :=
  [(parseIntHex2 (jsSlice hex 1 3)).map Int.ofNat,
   (parseIntHex2 (jsSlice hex 3 5)).map Int.ofNat,
   (parseIntHex2 (jsSlice hex 5 7)).map Int.ofNat]

/-! ## Helper lemmas -/

/-- Channel-level monotonicity of the interpolation formula. -/
lemma lerp_chan_mono {x y : ℤ} (hxy : x ≤ y) {t₁ t₂ : ℚ} (h12 : t₁ ≤ t₂) :
    jsRound ((x : ℚ) + ((y : ℚ) - x) * t₁) ≤ jsRound ((x : ℚ) + ((y : ℚ) - x) * t₂) := by
  apply jsRound_mono
  have hy : (0 : ℚ) ≤ (y : ℚ) - x := by
    have : (x : ℚ) ≤ y := by exact_mod_cast hxy
    linarith
  nlinarith

/-- Channel value at `t = 0` is the low endpoint, exactly. -/
lemma lerp_chan_zero (x y : ℤ) : jsRound ((x : ℚ) + ((y : ℚ) - x) * 0) = x := by
  have h : (x : ℚ) + ((y : ℚ) - x) * 0 = (x : ℚ) := by ring
  rw [h, jsRound_intCast]

/-- Channel value at `t = 1` is the high endpoint, exactly. -/
lemma lerp_chan_one (x y : ℤ) : jsRound ((x : ℚ) + ((y : ℚ) - x) * 1) = y := by
  have h : (x : ℚ) + ((y : ℚ) - x) * 1 = (y : ℚ) := by ring
  rw [h, jsRound_intCast]

/-! ## Claims -/

/-- Claim C4: For every pair of RGB triples `low`, `high` with integer channels
in `[0, 255]`: each channel of `_lerpColor(low, high, t)` is monotonic in `t`
over `[0, 1]` whenever `high[c] ≥ low[c]`, and `_lerpColor(low, high, 0)`
equals `low` exactly while `_lerpColor(low, high, 1)` equals `high` exactly —
no rounding drift at the endpoints. -/
theorem lerpColor_monotone_and_endpoints_exact (a b : RGB)
    (ha : a.inRange) (hb : b.inRange) :
    (∀ t₁ t₂ : ℚ, 0 ≤ t₁ → t₁ ≤ t₂ → t₂ ≤ 1 →
      (a.r ≤ b.r → (lerpColor a b t₁).r ≤ (lerpColor a b t₂).r) ∧
      (a.g ≤ b.g → (lerpColor a b t₁).g ≤ (lerpColor a b t₂).g) ∧
      (a.b ≤ b.b → (lerpColor a b t₁).b ≤ (lerpColor a b t₂).b)) ∧
    lerpColor a b 0 = a ∧ lerpColor a b 1 = b := by
  refine ⟨?_, ?_, ?_⟩
  · intro t₁ t₂ h0 h12 h1
    have e₁ : max 0 (min 1 t₁) = t₁ := by
      rw [min_eq_right (le_trans h12 h1), max_eq_right h0]
    have e₂ : max 0 (min 1 t₂) = t₂ := by
      rw [min_eq_right h1, max_eq_right (le_trans h0 h12)]
    refine ⟨?_, ?_, ?_⟩ <;> intro hc <;>
      simp only [lerpColor, e₁, e₂] <;> exact lerp_chan_mono hc h12
  · have e : max 0 (min 1 (0 : ℚ)) = 0 := by norm_num
    simp only [lerpColor, e, lerp_chan_zero]
  · have e : max 0 (min 1 (1 : ℚ)) = 1 := by norm_num
    simp only [lerpColor, e, lerp_chan_one]

/-- Witness for C4 at `low = (0,255,0)`, `high = (255,0,0)`. -/
theorem lerpColor_monotone_and_endpoints_exact_witness :
    RGB.inRange ⟨0, 255, 0⟩ ∧ RGB.inRange ⟨255, 0, 0⟩ ∧
    lerpColor ⟨0, 255, 0⟩ ⟨255, 0, 0⟩ 0 = ⟨0, 255, 0⟩ ∧
    lerpColor ⟨0, 255, 0⟩ ⟨255, 0, 0⟩ 1 = ⟨255, 0, 0⟩ :=
  ⟨by decide, by decide,
   (lerpColor_monotone_and_endpoints_exact ⟨0, 255, 0⟩ ⟨255, 0, 0⟩
      (by decide) (by decide)).2.1,
   (lerpColor_monotone_and_endpoints_exact ⟨0, 255, 0⟩ ⟨255, 0, 0⟩
      (by decide) (by decide)).2.2⟩

/-- Claim C2: For every visualization record and every normalized-fraction input
(including `null`/unknown), `_computeTuples` returns exactly 1 tuple when the
record's kind is alert (`isAlert`) or plain gauge (non-alert, renderer type
other than `"effect"`), and exactly 3 tuples when the kind is effect-driven
(non-alert, renderer type `"effect"`). -/
theorem computeTuples_tuple_count (states : String → Option String) (viz : Viz)
    (normPct : Option ℚ) :
    ((viz.isAlert = true ∨ viz.rendererType ≠ "effect") →
      (computeTuples states viz normPct).length = 1) ∧
    (viz.isAlert = false → viz.rendererType = "effect" →
      (computeTuples states viz normPct).length = 3) := by
  constructor
  · rintro (h | h)
    · simp [computeTuples, h]
    · cases hA : viz.isAlert with
      | true => simp [computeTuples, hA]
      | false => simp [computeTuples, hA, h]
  · intro hA hR
    simp only [computeTuples, hA, hR]
    simp only [Bool.false_eq_true, if_false, beq_self_eq_true, if_true]
    split <;> simp

/-- Witness for C2 on a concrete effect-driven record and a concrete alert
record. -/
theorem computeTuples_tuple_count_witness :
    (computeTuples (fun _ => none)
      { subentryId := "v1", name := "Viz", entities := {},
        colorLow := some ⟨0, 255, 0⟩, colorHigh := some ⟨255, 0, 0⟩,
        isAlert := false, rendererType := "effect", mode := "",
        sourceEntity := "", segmentId := 0, numLeds := 30,
        updateInterval := 1/2, flashColor := some ⟨255, 0, 0⟩,
        flashSpeed := 2, flashStyle := "pulse" } none).length = 3 ∧
    (computeTuples (fun _ => none)
      { subentryId := "v2", name := "Alert", entities := {},
        colorLow := some ⟨0, 255, 0⟩, colorHigh := some ⟨255, 0, 0⟩,
        isAlert := true, rendererType := "alert", mode := "alert",
        sourceEntity := "", segmentId := 0, numLeds := 30,
        updateInterval := 1/2, flashColor := some ⟨255, 0, 0⟩,
        flashSpeed := 2, flashStyle := "pulse" } (some 50)).length = 1 :=
  ⟨(computeTuples_tuple_count (fun _ => none) _ none).2 rfl rfl,
   (computeTuples_tuple_count (fun _ => none) _ (some 50)).1 (Or.inl rfl)⟩

/-- Claim C3: For every effect-driven record with `includeBlack` set (its
`include_black` entity exists and reads `"on"`) and every fraction input,
`_computeTuples` returns exactly
`[Primary = lerp(low, high, t), Secondary = (0,0,0), Tertiary = lerp(low, high, min(1, t + 0.30))]`
with `t = normPct / 100` (0 when unknown) — the black tuple is always the
middle element, regardless of `t`. -/
theorem computeTuples_includeBlack_layout (states : String → Option String)
    (viz : Viz) (normPct : Option ℚ) (eid : String) (low high : RGB)
    (hA : viz.isAlert = false) (hR : viz.rendererType = "effect")
    (hE : viz.entities.include_black = some eid) (hne : eid ≠ "")
    (hOn : states eid = some "on")
    (hlow : viz.colorLow = some low) (hhigh : viz.colorHigh = some high) :
    computeTuples states viz normPct =
      [⟨"Primary", lerpColor low high (normPct.getD 0 / 100)⟩,
       ⟨"Secondary", ⟨0, 0, 0⟩⟩,
       ⟨"Tertiary", lerpColor low high (min 1 (normPct.getD 0 / 100 + TUPLE_SPREAD))⟩] := by
  simp [computeTuples, hA, hR, hE, hne, hOn, hlow, hhigh, gradientColor]

/-- Witness for C3: a record at `normPct = 50` with the include-black switch
on. -/
theorem computeTuples_includeBlack_layout_witness :
    computeTuples (fun s => if s = "sw1" then some "on" else none)
      { subentryId := "v1", name := "Viz",
        entities := { include_black := some "sw1" },
        colorLow := some ⟨0, 255, 0⟩, colorHigh := some ⟨255, 0, 0⟩,
        isAlert := false, rendererType := "effect", mode := "",
        sourceEntity := "", segmentId := 0, numLeds := 30,
        updateInterval := 1/2, flashColor := some ⟨255, 0, 0⟩,
        flashSpeed := 2, flashStyle := "pulse" } (some 50) =
      [⟨"Primary", lerpColor ⟨0, 255, 0⟩ ⟨255, 0, 0⟩ ((some (50:ℚ)).getD 0 / 100)⟩,
       ⟨"Secondary", ⟨0, 0, 0⟩⟩,
       ⟨"Tertiary", lerpColor ⟨0, 255, 0⟩ ⟨255, 0, 0⟩
          (min 1 ((some (50:ℚ)).getD 0 / 100 + TUPLE_SPREAD))⟩] :=
  computeTuples_includeBlack_layout _ _ _ "sw1" _ _
    rfl rfl rfl (by decide) (by simp) rfl rfl

/-- Claim C8: For every load attempt whose remote `get_config` call fails
(transport or decode error, i.e. the promise rejects), `_loadConfig` catches
the error (logging it via `console.error`), does not throw to the caller
(`loadConfig` is a total function), and leaves the previously held record
state unchanged: the stored visualization list is not modified and the
`_loaded` flag is not set. -/
theorem loadConfig_failure_silent (st : CardState) (deviceEntry : Option String) :
    (loadConfig st deviceEntry (.error ())).vizData = st.vizData ∧
    (loadConfig st deviceEntry (.error ())).loaded = st.loaded := by
  unfold loadConfig
  cases st.loading <;> cases deviceEntry <;> simp

/-- State visible after `n` sequential `_loadConfig` attempts starting from
`st`, the first one consuming `env i`. -/
def runLoad (env : ℕ → Option String × Except Unit GetConfigResult)
    (i : ℕ) (st : CardState) : ℕ → CardState
  | 0 => st
  | n + 1 => loadConfig (runLoad env i st n) (env (i + n)).1 (env (i + n)).2

/-- State after the `(j+1)`-st attempt of `_reloadConfig`'s loop. -/
def reloadAttempt (st : CardState)
    (env : ℕ → Option String × Except Unit GetConfigResult) (j : ℕ) : CardState :=
  runLoad env 0 { st with loaded := false, loading := false } (j + 1)

lemma runLoad_shift (env : ℕ → Option String × Except Unit GetConfigResult)
    (i : ℕ) (st : CardState) :
    ∀ n, runLoad env i st (n + 1) =
      runLoad env (i + 1) (loadConfig st (env i).1 (env i).2) n := by
  intro n
  induction n with
  | zero => simp [runLoad]
  | succ m ih =>
    show loadConfig (runLoad env i st (m + 1)) (env (i + (m + 1))).1 (env (i + (m + 1))).2 = _
    rw [ih]
    show _ = loadConfig (runLoad env (i + 1) _ m) (env ((i + 1) + m)).1 (env ((i + 1) + m)).2
    have : i + (m + 1) = (i + 1) + m := by omega
    rw [this]

lemma reloadGo_length_le (env : ℕ → Option String × Except Unit GetConfigResult) :
    ∀ fuel i st, ((reloadGo env fuel i st).2).length ≤ fuel := by
  intro fuel
  induction fuel with
  | zero => intro i st; simp [reloadGo]
  | succ m ih =>
    intro i st
    simp only [reloadGo]
    split
    · simp
    · simpa using Nat.succ_le_succ (ih (i + 1) _)

lemma reloadGo_trace (env : ℕ → Option String × Except Unit GetConfigResult) :
    ∀ fuel i st, ∃ k, k ≤ fuel ∧
      (reloadGo env fuel i st).2 = (List.range k).map (fun j => delayMs (i + j)) := by
  intro fuel
  induction fuel with
  | zero => intro i st; exact ⟨0, le_refl 0, by simp [reloadGo]⟩
  | succ m ih =>
    intro i st
    simp only [reloadGo]
    split
    · exact ⟨1, by omega, by simp [List.range_succ]⟩
    · obtain ⟨k, hk, htr⟩ := ih (i + 1) (loadConfig st (env i).1 (env i).2)
      refine ⟨k + 1, by omega, ?_⟩
      rw [htr, List.range_succ_eq_map, List.map_cons, List.map_map]
      refine congrArg₂ _ (by simp) ?_
      apply List.map_congr_left
      intro j _
      show delayMs ((i + 1) + j) = delayMs (i + (j + 1))
      have : (i + 1) + j = i + (j + 1) := by omega
      rw [this]

lemma reloadGo_early_stop (env : ℕ → Option String × Except Unit GetConfigResult) :
    ∀ fuel i st j, j + 1 < ((reloadGo env fuel i st).2).length →
      vizNonEmpty (runLoad env i st (j + 1)) = false := by
  intro fuel
  induction fuel with
  | zero => intro i st j h; simp [reloadGo] at h
  | succ m ih =>
    intro i st j h
    simp only [reloadGo] at h
    by_cases hbr : vizNonEmpty (loadConfig st (env i).1 (env i).2) = true
    · simp [hbr] at h
    · have hbr' : vizNonEmpty (loadConfig st (env i).1 (env i).2) = false :=
        Bool.eq_false_iff.mpr hbr
      simp only [hbr', if_neg, Bool.false_eq_true, not_false_eq_true,
        List.length_cons] at h
      cases j with
      | zero =>
        show vizNonEmpty (loadConfig (runLoad env i st 0) (env (i + 0)).1 (env (i + 0)).2) = false
        simpa [runLoad] using hbr'
      | succ k =>
        rw [runLoad_shift]
        exact ih (i + 1) _ k (by omega)

/-- Claim C1: `_reloadConfig` retries `_loadConfig` up to 5 times, awaiting the
escalating delays 1500, 2000, 2500, 3000, 3500 ms (1.5 s … 3.5 s) before the
attempts (attempt `j` is preceded by delay `1500 + 500·j`), stops early as
soon as an attempt leaves a non-empty record list (whenever a further attempt
was made, the attempt before it had yielded an empty/absent list), and when
every attempt yields an empty list it resolves after all 5 attempts with that
empty list — `reloadConfig` is a total function, so it never raises. -/
theorem reloadConfig_retry_spec (st : CardState)
    (env : ℕ → Option String × Except Unit GetConfigResult) (e : String) :
    ((reloadConfig st env).2).length ≤ 5 ∧
    (reloadConfig st env).2 =
      (List.range ((reloadConfig st env).2).length).map delayMs ∧
    (∀ j, j + 1 < ((reloadConfig st env).2).length →
      vizNonEmpty (reloadAttempt st env j) = false) ∧
    ((∀ i, i < 5 → env i = (some e, .ok ⟨some []⟩)) →
      (reloadConfig st env).1.vizData = some [] ∧
      (reloadConfig st env).2 = [1500, 2000, 2500, 3000, 3500]) := by
  refine ⟨reloadGo_length_le env 5 0 _, ?_, ?_, ?_⟩
  · obtain ⟨k, _, htr⟩ := reloadGo_trace env 5 0
      { st with loaded := false, loading := false }
    simp only [reloadConfig]
    rw [htr]
    simp
  · intro j h
    exact reloadGo_early_stop env 5 0 _ j h
  · intro henv
    have h0 := henv 0 (by omega)
    have h1 := henv 1 (by omega)
    have h2 := henv 2 (by omega)
    have h3 := henv 3 (by omega)
    have h4 := henv 4 (by omega)
    constructor
    · simp [reloadConfig, reloadGo, h0, h1, h2, h3, h4, loadConfig, vizNonEmpty]
    · simp [reloadConfig, reloadGo, h0, h1, h2, h3, h4, loadConfig, vizNonEmpty,
        delayMs]
      norm_num

/-- An initial card state (no data loaded yet). -/
def initState : CardState :=
  { vizData := none, colorState := [], loaded := false, loading := false,
    entryId := none, showCreateForm := false, createMode := none,
    createData := none }

/-- Witness for C1: a backend that answers every attempt with an empty list. -/
theorem reloadConfig_retry_spec_witness :
    ((reloadConfig initState (fun _ => (some "e1", .ok ⟨some []⟩))).1.vizData = some [] ∧
     (reloadConfig initState (fun _ => (some "e1", .ok ⟨some []⟩))).2 =
       [1500, 2000, 2500, 3000, 3500]) ∧
    vizNonEmpty (reloadAttempt initState (fun _ => (some "e1", .ok ⟨some []⟩)) 0) = false := by
  have spec := reloadConfig_retry_spec initState
    (fun _ => (some "e1", .ok ⟨some []⟩)) "e1"
  have hall := spec.2.2.2 (fun i _ => rfl)
  refine ⟨hall, spec.2.2.1 0 ?_⟩
  rw [hall.2]
  simp

/-- Claim C7: For every create request missing a bound source entity
(`this._createData?.entity_id` absent or empty), `_createVisualization`
rejects the request locally — state unchanged, no message sent to the
backend; a network call is issued exactly when a source entity is bound and a
mode and an entry id are present. -/
theorem createVisualization_validation (st : CardState) (resp : Except Unit Unit)
    (env : ℕ → Option String × Except Unit GetConfigResult) :
    ((st.createData.bind CreateData.entity_id = none ∨
      st.createData.bind CreateData.entity_id = some "") →
      createVisualization st resp env = (st, [])) ∧
    ((createVisualization st resp env).2 ≠ [] ↔
      (jsTruthyStr st.entryId && jsTruthyStr st.createMode
        && jsTruthyStr (st.createData.bind CreateData.entity_id)) = true) := by
  constructor
  · rintro (h | h) <;>
      simp [createVisualization, h, jsTruthyStr]
  · unfold createVisualization
    by_cases hg : (jsTruthyStr st.entryId && jsTruthyStr st.createMode
        && jsTruthyStr (st.createData.bind CreateData.entity_id)) = true
    · rw [hg]
      cases resp <;> simp [hg]
    · simp only [Bool.not_eq_true] at hg
      simp [hg]

/-- Witness for C7: a state with no bound source entity is rejected with no
message, and a fully-populated request issues a call. -/
theorem createVisualization_validation_witness :
    (createVisualization initState (.ok ()) (fun _ => (none, .error ())) =
      (initState, [])) ∧
    (createVisualization
      { initState with entryId := some "e1", createMode := some "alert",
                       createData := some { entity_id := some "sensor.a" } }
      (.ok ()) (fun _ => (none, .error ()))).2 ≠ [] :=
  ⟨(createVisualization_validation initState (.ok ()) _).1 (Or.inl rfl),
   (createVisualization_validation _ (.ok ()) _).2.mpr rfl⟩

/-- Claim C9: For every delete request, the backend `delete_viz` call is issued
only after operator confirmation; a declined confirmation makes
`_deleteVisualization` a no-op (state unchanged, no call, hence no reload);
on acceptance (with a truthy entry id) the call is issued, and when it
succeeds `_reloadConfig` is triggered (the resulting state is the reload's
state). -/
theorem deleteVisualization_confirmation_gate (st : CardState) (viz : Viz)
    (confirmed : Bool) (resp : Except Unit Unit)
    (env : ℕ → Option String × Except Unit GetConfigResult) :
    (deleteVisualization st viz false resp env = (st, [])) ∧
    ((deleteVisualization st viz confirmed resp env).2 ≠ [] → confirmed = true) ∧
    (jsTruthyStr st.entryId = true →
      (deleteVisualization st viz true resp env).2 =
        [Msg.deleteViz st.entryId viz.subentryId] ∧
      (resp = .ok () →
        (deleteVisualization st viz true resp env).1 = (reloadConfig st env).1)) := by
  refine ⟨?_, ?_, ?_⟩
  · cases h : jsTruthyStr st.entryId <;> simp [deleteVisualization, h]
  · intro hne
    by_cases hc : confirmed = true
    · exact hc
    · exfalso
      simp only [Bool.not_eq_true] at hc
      cases h : jsTruthyStr st.entryId <;>
        simp [deleteVisualization, h, hc] at hne
  · intro he
    cases resp with
    | error e => simp [deleteVisualization, he]
    | ok u => simp [deleteVisualization, he]

/-- A concrete effect-driven record, used by witnesses. -/
def sampleViz : Viz :=
  { subentryId := "v1", name := "Viz", entities := {},
    colorLow := some ⟨0, 255, 0⟩, colorHigh := some ⟨255, 0, 0⟩,
    isAlert := false, rendererType := "effect", mode := "",
    sourceEntity := "", segmentId := 0, numLeds := 30,
    updateInterval := 1/2, flashColor := some ⟨255, 0, 0⟩,
    flashSpeed := 2, flashStyle := "pulse" }

/-- A concrete loaded state holding `sampleViz`, used by witnesses. -/
def entryState : CardState :=
  { vizData := some [sampleViz], colorState := [], loaded := true,
    loading := false, entryId := some "e1", showCreateForm := false,
    createMode := none, createData := none }

/-- A trivial reload environment every attempt of which fails. -/
def failEnv : ℕ → Option String × Except Unit GetConfigResult :=
  fun _ => (none, .error ())

/-- Witness for C9: a declined delete is a no-op; an accepted one issues the
call. -/
theorem deleteVisualization_confirmation_gate_witness :
    (deleteVisualization entryState sampleViz false (.ok ()) failEnv =
      (entryState, [])) ∧
    (deleteVisualization entryState sampleViz true (.ok ()) failEnv).2 =
      [Msg.deleteViz (some "e1") "v1"] :=
  ⟨(deleteVisualization_confirmation_gate entryState sampleViz true (.ok ()) failEnv).1,
   ((deleteVisualization_confirmation_gate entryState sampleViz true (.ok ()) failEnv).2.2
      (by decide)).1⟩

/-- The overlay entry currently stored for a record id. -/
def overlayAt (st : CardState) (k : String) : Option Overlay :=
  List.lookup k st.colorState

lemma lookup_setOverlay_of_lookup (k : String) (f : Overlay → Overlay)
    (o : Overlay) :
    ∀ t : List (String × Overlay), List.lookup k t = some o →
      List.lookup k (setOverlay t k f) = some (f o) := by
  intro t
  induction t with
  | nil => intro h; simp [List.lookup] at h
  | cons p tl ih =>
    obtain ⟨a, b⟩ := p
    intro h
    by_cases hp : a = k
    · subst hp
      simp only [List.lookup, beq_self_eq_true, Option.some.injEq] at h
      subst h
      simp only [setOverlay, List.map_cons]
      rw [if_pos (beq_self_eq_true a)]
      simp [List.lookup]
    · have hkp : (k == a) = false := beq_eq_false_iff_ne.mpr (fun hh => hp hh.symm)
      have hpk : (a == k) = false := beq_eq_false_iff_ne.mpr hp
      simp only [List.lookup, hkp] at h
      simp only [setOverlay, List.map_cons, hpk, Bool.false_eq_true, if_false]
      simp only [List.lookup, hkp]
      have hgoal := ih h
      simpa [setOverlay] using hgoal

lemma lookup_setOverlay_ensureOverlay (cs : List (String × Overlay)) (k : String)
    (f : Overlay → Overlay) :
    List.lookup k (setOverlay (ensureOverlay cs k) k f) =
      some (f ((List.lookup k cs).getD {})) := by
  unfold ensureOverlay
  cases h : List.lookup k cs with
  | none =>
    simp only [h]
    have : List.lookup k ((k, ({} : Overlay)) :: cs) = some {} := by
      simp [List.lookup]
    simpa using lookup_setOverlay_of_lookup k f {} _ this
  | some o =>
    simp only [h]
    exact lookup_setOverlay_of_lookup k f o cs h

lemma mem_mapVizData {vd : Option (List Viz)} {subId : String} {f : Viz → Viz}
    {w : Viz} (hw : w ∈ (mapVizData vd subId f).getD []) :
    ∃ w', w' ∈ vd.getD [] ∧
      ((w'.subentryId = subId ∧ w = f w') ∨ (w'.subentryId ≠ subId ∧ w = w')) := by
  cases vd with
  | none => simp [mapVizData] at hw
  | some l =>
    have hw2 : w ∈ l.map
        (fun w => if (w.subentryId == subId) = true then f w else w) := hw
    rw [List.mem_map] at hw2
    obtain ⟨w', hw', heq⟩ := hw2
    by_cases hid : w'.subentryId = subId
    · refine ⟨w', hw', Or.inl ⟨hid, ?_⟩⟩
      simp only [hid, beq_self_eq_true, if_true] at heq
      exact heq.symm
    · refine ⟨w', hw', Or.inr ⟨hid, ?_⟩⟩
      have hb : (w'.subentryId == subId) = false := beq_eq_false_iff_ne.mpr hid
      simp only [hb, Bool.false_eq_true, if_false] at heq
      exact heq.symm

/-- Counterexample to claim C5: After `update(recordId, "flash_speed", 5.0)` the
in-memory record's `flashSpeed` is 5 synchronously, but — contrary to the
claim — nothing is written into the per-record overlay: the overlay entry
created for the record is the empty object `{}` (no pending value for any
field), and a subsequent load whose backend payload carries
`flash_speed = 7` replaces the optimistic 5 with 7 (no overlay value masks
the backend value for this field). -/
theorem updateWsParam_flashSpeed_no_overlay_value :
    ((updateWsParam entryState "v1" WsKey.flashSpeed 5).1.vizData.getD []).map
        Viz.flashSpeed = [5] ∧
    (updateWsParam entryState "v1" WsKey.flashSpeed 5).1.colorState =
      [("v1", { low := none, high := none, flashColor := none })] ∧
    ((loadConfig (updateWsParam entryState "v1" WsKey.flashSpeed 5).1 (some "e1")
        (.ok ⟨some [{ subentry_id := "v1", flash_speed := some 7 }]⟩)).vizData.getD
          []).map Viz.flashSpeed = [7] := by
  refine ⟨?_, ?_, ?_⟩ <;> rfl

/-- Claim C5 as amended: `update` writes the new value into the in-memory record
synchronously and fires the `update_viz` call in the same turn, before the
backend acknowledges; but only the color-valued fields are written into the
per-record overlay — `flash_color` (via `_updateWsParam`) and
`color_low`/`color_high` (via `_updateColor`) — while `flash_speed` and
`flash_style` leave the overlay entry without any pending value.  A second
update to the same field before acknowledgment simply overwrites the stored
record value, and for the overlaid fields also the overlay value
(last-writer-wins; no queueing). -/
theorem update_optimistic_writes (st : CardState) (subId : String) (q : ℚ)
    (s : String) (c c₂ lo hi : RGB) :
    (∀ w ∈ ((updateWsParam st subId WsKey.flashSpeed q).1.vizData.getD []),
        w.subentryId = subId → w.flashSpeed = q) ∧
    ((updateWsParam st subId WsKey.flashSpeed q).2 =
        [.updateViz st.entryId subId "flash_speed" (.num q)]) ∧
    (overlayAt (updateWsParam st subId WsKey.flashSpeed q).1 subId =
        some ((overlayAt st subId).getD {})) ∧
    (∀ w ∈ ((updateWsParam st subId WsKey.flashStyle s).1.vizData.getD []),
        w.subentryId = subId → w.flashStyle = s) ∧
    (∀ w ∈ ((updateWsParam st subId WsKey.flashColor c).1.vizData.getD []),
        w.subentryId = subId → w.flashColor = some c) ∧
    (overlayAt (updateWsParam st subId WsKey.flashColor c).1 subId =
        some { (overlayAt st subId).getD {} with flashColor := some c }) ∧
    ((overlayAt (updateWsParam (updateWsParam st subId WsKey.flashColor c).1
        subId WsKey.flashColor c₂).1 subId).map Overlay.flashColor =
        some (some c₂)) ∧
    (∀ w ∈ ((updateWsParam (updateWsParam st subId WsKey.flashColor c).1
        subId WsKey.flashColor c₂).1.vizData.getD []),
        w.subentryId = subId → w.flashColor = some c₂) ∧
    (∀ w ∈ ((updateColor st subId "color_low" lo).1.vizData.getD []),
        w.subentryId = subId → w.colorLow = some lo) ∧
    ((overlayAt (updateColor st subId "color_low" lo).1 subId).map Overlay.low =
        some (some lo)) ∧
    (∀ w ∈ ((updateColor st subId "color_high" hi).1.vizData.getD []),
        w.subentryId = subId → w.colorHigh = some hi) ∧
    ((overlayAt (updateColor st subId "color_high" hi).1 subId).map Overlay.high =
        some (some hi)) := by
  refine ⟨?_, rfl, ?_, ?_, ?_, ?_, ?_, ?_, ?_, ?_, ?_, ?_⟩
  · intro w hw hid
    obtain ⟨w', _, (⟨hid', rfl⟩ | ⟨hne, rfl⟩)⟩ := mem_mapVizData hw
    · rfl
    · exact absurd hid hne
  · exact lookup_setOverlay_ensureOverlay st.colorState subId _
  · intro w hw hid
    obtain ⟨w', _, (⟨hid', rfl⟩ | ⟨hne, rfl⟩)⟩ := mem_mapVizData hw
    · rfl
    · exact absurd hid hne
  · intro w hw hid
    obtain ⟨w', _, (⟨hid', rfl⟩ | ⟨hne, rfl⟩)⟩ := mem_mapVizData hw
    · rfl
    · exact absurd hid hne
  · exact lookup_setOverlay_ensureOverlay st.colorState subId _
  · rw [show overlayAt (updateWsParam (updateWsParam st subId WsKey.flashColor c).1
          subId WsKey.flashColor c₂).1 subId =
        some (overlayWrite WsKey.flashColor c₂
          ((List.lookup subId
            (updateWsParam st subId WsKey.flashColor c).1.colorState).getD {}))
      from lookup_setOverlay_ensureOverlay _ _ _]
    rfl
  · intro w hw hid
    obtain ⟨w', _, (⟨hid', rfl⟩ | ⟨hne, rfl⟩)⟩ := mem_mapVizData hw
    · rfl
    · exact absurd hid hne
  · intro w hw hid
    obtain ⟨w', _, (⟨hid', rfl⟩ | ⟨hne, rfl⟩)⟩ := mem_mapVizData hw
    · rfl
    · exact absurd hid hne
  · rw [show overlayAt (updateColor st subId "color_low" lo).1 subId =
        some ((fun o => { o with low := some lo })
          ((List.lookup subId st.colorState).getD {}))
      from lookup_setOverlay_ensureOverlay st.colorState subId
        (fun o => { o with low := some lo })]
    rfl
  · intro w hw hid
    obtain ⟨w', _, (⟨hid', rfl⟩ | ⟨hne, rfl⟩)⟩ := mem_mapVizData hw
    · rfl
    · exact absurd hid hne
  · rw [show overlayAt (updateColor st subId "color_high" hi).1 subId =
        some ((fun o => { o with high := some hi })
          ((List.lookup subId st.colorState).getD {}))
      from lookup_setOverlay_ensureOverlay st.colorState subId
        (fun o => { o with high := some hi })]
    rfl

/-- Witness for the amended C5 at a concrete state and values: the updated
record is a member of the post-update list and the theorem yields its new
`flashSpeed`; overlay facts are instantiated as well. -/
theorem update_optimistic_writes_witness :
    ((updateWsParam entryState "v1" WsKey.flashSpeed 5).2 =
      [.updateViz (some "e1") "v1" "flash_speed" (.num 5)]) ∧
    ({ sampleViz with flashSpeed := 5 } : Viz).flashSpeed = 5 ∧
    (overlayAt (updateWsParam entryState "v1" WsKey.flashColor ⟨9, 9, 9⟩).1 "v1" =
      some { low := none, high := none, flashColor := some ⟨9, 9, 9⟩ }) := by
  have spec := update_optimistic_writes entryState "v1" 5 "pulse"
    ⟨9, 9, 9⟩ ⟨8, 8, 8⟩ ⟨1, 2, 3⟩ ⟨4, 5, 6⟩
  exact ⟨spec.2.1, spec.1 _ (by exact List.mem_singleton.mpr rfl) rfl,
    spec.2.2.2.2.2.1⟩

lemma loadConfig_colorState (st : CardState) (d : Option String)
    (r : Except Unit GetConfigResult) :
    (loadConfig st d r).colorState = st.colorState := by
  unfold loadConfig
  cases st.loading
  · cases d
    · simp
    · cases r <;> simp
  · simp

lemma reloadGo_colorState (env : ℕ → Option String × Except Unit GetConfigResult) :
    ∀ fuel i st, (reloadGo env fuel i st).1.colorState = st.colorState := by
  intro fuel
  induction fuel with
  | zero => intro i st; simp [reloadGo]
  | succ m ih =>
    intro i st
    simp only [reloadGo]
    split
    · exact loadConfig_colorState st (env i).1 (env i).2
    · rw [ih (i + 1) _, loadConfig_colorState]

/-- Counterexample to claim C6: A load that returns a fresh authoritative backend
value `color_low = (9,9,9)` for a record whose overlay holds a stale
`(1,2,3)` presents the overlay value, not the backend value: the mapping is
`saved?.low || viz.color_low || default`, so the overlay is never superseded
by the backend. -/
theorem loadConfig_overlay_beats_backend :
    (((loadConfig
        { entryState with
            colorState := [("v1", { low := some ⟨1, 2, 3⟩, high := none,
                                    flashColor := none })] }
        (some "e1")
        (.ok ⟨some [{ subentry_id := "v1",
                      color_low := some ⟨9, 9, 9⟩ }]⟩)).vizData.getD []).map
      Viz.colorLow = [some ⟨1, 2, 3⟩]) ∧
    ¬(((loadConfig
        { entryState with
            colorState := [("v1", { low := some ⟨1, 2, 3⟩, high := none,
                                    flashColor := none })] }
        (some "e1")
        (.ok ⟨some [{ subentry_id := "v1",
                      color_low := some ⟨9, 9, 9⟩ }]⟩)).vizData.getD []).map
      Viz.colorLow = [some ⟨9, 9, 9⟩]) := by
  exact ⟨rfl, by decide⟩

/-- Claim C6 as amended: The overlay entry for a record is never cleared at all —
not by a timer, and not by fresher backend values either: loads and reloads
leave the overlay table untouched, and whenever an overlay value exists for an
overlaid field (`color_low`, `color_high`, `flash_color`), the record a load
presents to the consumer carries the overlay value in preference to whatever
the backend returned for that field. -/
theorem overlay_sticky_and_wins (st : CardState) (d : Option String)
    (r : Except Unit GetConfigResult)
    (env : ℕ → Option String × Except Unit GetConfigResult)
    (cs : List (String × Overlay)) (w : WireViz) (o : Overlay) (c : RGB) :
    ((loadConfig st d r).colorState = st.colorState) ∧
    ((reloadConfig st env).1.colorState = st.colorState) ∧
    (List.lookup w.subentry_id cs = some o → o.low = some c →
      (mapWire cs w).colorLow = some c) ∧
    (List.lookup w.subentry_id cs = some o → o.high = some c →
      (mapWire cs w).colorHigh = some c) ∧
    (List.lookup w.subentry_id cs = some o → o.flashColor = some c →
      (mapWire cs w).flashColor = some c) := by
  refine ⟨loadConfig_colorState st d r, reloadGo_colorState env 5 0 _, ?_, ?_, ?_⟩
  all_goals intro hl hf
  all_goals simp [mapWire, hl, hf]

/-- Witness for the amended C6: loads preserve a concrete overlay table and a
stale overlay `(1,2,3)` wins over backend `(9,9,9)`. -/
theorem overlay_sticky_and_wins_witness :
    ((loadConfig entryState (some "e1") (.error ())).colorState =
      entryState.colorState) ∧
    (mapWire [("v1", { low := some ⟨1, 2, 3⟩, high := none, flashColor := none })]
      { subentry_id := "v1", color_low := some ⟨9, 9, 9⟩ }).colorLow =
      some ⟨1, 2, 3⟩ := by
  have spec := overlay_sticky_and_wins entryState (some "e1") (.error ()) failEnv
    [("v1", { low := some ⟨1, 2, 3⟩, high := none, flashColor := none })]
    { subentry_id := "v1", color_low := some ⟨9, 9, 9⟩ }
    { low := some ⟨1, 2, 3⟩, high := none, flashColor := none } ⟨1, 2, 3⟩
  exact ⟨spec.1, spec.2.2.1 (by decide) rfl⟩

lemma hexDigitVal_digitChar : ∀ d, d < 16 → hexDigitVal (Nat.digitChar d) = some d := by
  decide

lemma parse_toHex2 (n : ℕ) (h : n < 256) : parseIntHex2 (toHex2 n) = some n := by
  have h1 : n / 16 < 16 := by omega
  have h2 : n % 16 < 16 := Nat.mod_lt _ (by norm_num)
  have e1 := hexDigitVal_digitChar (n / 16) h1
  have e2 := hexDigitVal_digitChar (n % 16) h2
  simp only [toHex2, parseIntHex2, e1, e2, Option.some.injEq]
  omega

/-- Claim C10: For every RGB triple whose three channels are integers in
`[0, 255]`, converting to a hex color string and back is the identity:
`_hexToRgb(_rgbToHex(rgb))` recovers exactly the three channels; and for
every malformed input (not an array, or fewer than 3 channels) `_rgbToHex`
returns the fixed default `"#00ff00"`. -/
theorem rgbToHex_hexToRgb_roundtrip (r g b : ℤ)
    (hr0 : 0 ≤ r) (hr1 : r ≤ 255) (hg0 : 0 ≤ g) (hg1 : g ≤ 255)
    (hb0 : 0 ≤ b) (hb1 : b ≤ 255) :
    hexToRgb (rgbToHex (some [r, g, b])) = [some r, some g, some b] ∧
    rgbToHex none = ['#', '0', '0', 'f', 'f', '0', '0'] ∧
    (∀ l : List ℤ, l.length < 3 →
      rgbToHex (some l) = ['#', '0', '0', 'f', 'f', '0', '0']) := by
  refine ⟨?_, rfl, ?_⟩
  · have hcr : jsClamp255 r = r := by rw [jsClamp255, min_eq_right hr1, max_eq_right hr0]
    have hcg : jsClamp255 g = g := by rw [jsClamp255, min_eq_right hg1, max_eq_right hg0]
    have hcb : jsClamp255 b = b := by rw [jsClamp255, min_eq_right hb1, max_eq_right hb0]
    have hnr : r.toNat < 256 := by omega
    have hng : g.toNat < 256 := by omega
    have hnb : b.toNat < 256 := by omega
    rw [show rgbToHex (some [r, g, b]) =
        '#' :: (toHex2 (jsClamp255 r).toNat ++
          (toHex2 (jsClamp255 g).toNat ++ (toHex2 (jsClamp255 b).toNat ++ [])))
      from rfl]
    rw [hcr, hcg, hcb]
    have hs1 : jsSlice ('#' :: (toHex2 r.toNat ++
        (toHex2 g.toNat ++ (toHex2 b.toNat ++ [])))) 1 3 = toHex2 r.toNat := rfl
    have hs2 : jsSlice ('#' :: (toHex2 r.toNat ++
        (toHex2 g.toNat ++ (toHex2 b.toNat ++ [])))) 3 5 = toHex2 g.toNat := rfl
    have hs3 : jsSlice ('#' :: (toHex2 r.toNat ++
        (toHex2 g.toNat ++ (toHex2 b.toNat ++ [])))) 5 7 = toHex2 b.toNat := rfl
    rw [show hexToRgb ('#' :: (toHex2 r.toNat ++
        (toHex2 g.toNat ++ (toHex2 b.toNat ++ [])))) =
        [(parseIntHex2 (toHex2 r.toNat)).map Int.ofNat,
         (parseIntHex2 (toHex2 g.toNat)).map Int.ofNat,
         (parseIntHex2 (toHex2 b.toNat)).map Int.ofNat]
      from by rw [hexToRgb, hs1, hs2, hs3]]
    rw [parse_toHex2 r.toNat hnr, parse_toHex2 g.toNat hng, parse_toHex2 b.toNat hnb]
    simp [Int.toNat_of_nonneg, hr0, hg0, hb0]
  · intro l hl
    rw [show rgbToHex (some l) =
        if l.length < 3 then ['#', '0', '0', 'f', 'f', '0', '0']
        else '#' :: (List.map (fun c => toHex2 (jsClamp255 c).toNat) l).flatten
      from rfl, if_pos hl]

/-- Witness for C10 at `rgb = (0, 255, 64)`. -/
theorem rgbToHex_hexToRgb_roundtrip_witness :
    hexToRgb (rgbToHex (some [0, 255, 64])) = [some 0, some 255, some 64] ∧
    rgbToHex (some [0, 255]) = ['#', '0', '0', 'f', 'f', '0', '0'] := by
  have spec := rgbToHex_hexToRgb_roundtrip 0 255 64
    (by decide) (by decide) (by decide) (by decide) (by decide) (by decide)
  exact ⟨spec.1, spec.2.2 [0, 255] (by decide)⟩

end InfraGlow
